import Mathlib

/-!
Shallow embedding of the emissions-estimator backend (`src/backend/app.py`)
of the codeleaf-ai repository, together with proofs about the claims of its
specification.

Modelling conventions:
* Python floats are modelled exactly as rationals (`ℚ`).
* External effects (OS probes, subprocess runs, the codecarbon tracker, the
  gcc invocation, temp-file naming) are supplied through explicit
  environment records; a subprocess call that raises an exception is a
  `none` / `Except.error` value of the environment.
* A Python value that may be `None` is an `Option`.
* File contents are not modelled; the filesystem effect of a call is
  tracked as the list of paths created during the call and the list of
  those paths still present after the `finally` block.
-/

namespace Codeleaf

/-- `pat` is a prefix of `l` (character lists). -/
def charsPrefix : List Char → List Char → Bool
  | [], _ => true
  | _ :: _, [] => false
  | a :: as, b :: bs => a = b && charsPrefix as bs

/-- `pat` occurs as a contiguous sublist of `l`. -/
def charsInfix (pat : List Char) : List Char → Bool
  | [] => charsPrefix pat []
  | b :: bs => charsPrefix pat (b :: bs) || charsInfix pat bs

/-- Substring containment, the semantics of Python's `kw in s`. -/
def strContainsSub (s pat : String) : Bool :=
  charsInfix pat.data s.data

/-- Python's `str.lower()`: lowercase every character. -/
def strLower (s : String) : String :=
  ⟨s.data.map Char.toLower⟩

/-- Python's `str.strip()`: drop leading and trailing whitespace. -/
def strStrip (s : String) : String :=
  ⟨((s.data.dropWhile Char.isWhitespace).reverse.dropWhile Char.isWhitespace).reverse⟩

/-- Embedding of `detect_language` (backend lines 57-69): keyword-based
language detection over the lowercased code string. -/
def detect_language (code : String) (prompt : String := "") : String :=
  let code_lower := strLower code
  if ["#include", "int main", "printf"].any (fun kw => strContainsSub code_lower kw) then
    "c"
  else if strContainsSub code_lower "public class" then
    "java"
  else if ["console.log", "function"].any (fun kw => strContainsSub code_lower kw) then
    "javascript"
  else if ["select", "from", "where"].any (fun kw => strContainsSub code_lower kw) then
    "sql"
  else if strStrip code ≠ "" ∨ strStrip prompt ≠ "" then
    "python"
  else
    "python"

/-- Environment for `get_system_wattage`: the OS readings the probe makes.
`getGPUs` is `Except.error ()` when `GPUtil.getGPUs()` raises; on success it
holds the `memoryTotal` reading of each detected GPU. -/
structure SysEnv where
  cpuCount : ℕ
  platformSystem : String
  gputilPresent : Bool
  getGPUs : Except Unit (List ℚ)

/-- Embedding of `get_system_wattage` (backend lines 71-83).  The try/except
swallows a GPU-enumeration failure after `cpu_power_w` has already been
(possibly) raised to 65, so an enumeration error leaves the CPU wattage
intact and the GPU wattage at 0.  The function is total: the probe never
raises. -/
def get_system_wattage (s : SysEnv) : ℕ × ℚ × ℚ :=
  let cpu_count := s.cpuCount
  let cpu_power_w : ℚ := if s.platformSystem = "Windows" then 65 else 45
  let gpu_power_w : ℚ :=
    if s.gputilPresent then
      match s.getGPUs with
      | .error _ => 0
      | .ok gpus => if gpus ≠ [] then (gpus.map (fun gpu => gpu * 0.5)).sum else 0
    else 0
  (cpu_count, cpu_power_w, gpu_power_w)

/-- `energy_kwh` as computed at backend line 93. -/
def energy_kwh (cpu_count : ℕ) (cpu_power_w gpu_power_w elapsed : ℚ) : ℚ :=
  ((cpu_power_w * cpu_count) + gpu_power_w) * elapsed / 3600

/-- `co2_kg` as computed at backend line 94. -/
def co2_kg (cpu_count : ℕ) (cpu_power_w gpu_power_w elapsed : ℚ) : ℚ :=
  energy_kwh cpu_count cpu_power_w gpu_power_w elapsed * 0.475

/-- The total wattage `(cpu_power_w * cpu_count) + gpu_power_w` used by the
emission formula, derived from the probe. -/
def totalWatts (s : SysEnv) : ℚ :=
  (get_system_wattage s).2.1 * (get_system_wattage s).1 + (get_system_wattage s).2.2

/-- Per-run CO2 value for a given system environment and elapsed time. -/
def co2_of_elapsed (s : SysEnv) (elapsed : ℚ) : ℚ :=
  co2_kg (get_system_wattage s).1 (get_system_wattage s).2.1 (get_system_wattage s).2.2 elapsed

/-- Environment for one call of `universal_emissions_tracker`: the system
probe readings plus, for each loop iteration `i`, the outcome of the
`subprocess.run` call (`none` when it raised, e.g. timeout or missing
executable; `some e` when it returned after `e` elapsed seconds). -/
structure TrackerEnv where
  sys : SysEnv
  run : ℕ → Option ℚ

/-- Result of the tracker's for-loop: either all iterations completed,
yielding the recorded samples, or some iteration raised.  `execs` counts the
subprocess invocations actually performed. -/
inductive LoopResult where
  | ok (samples : List ℚ) (execs : ℕ)
  | err (execs : ℕ)
deriving DecidableEq, Repr

/-- The for-loop of `universal_emissions_tracker` (backend lines 89-95) over
the (pre-extracted) list of per-iteration outcomes.  An exception aborts the
loop at once: the `except` clause of the source returns `0.0` regardless of
the samples already collected. -/
def tracker_loop (f : ℚ → ℚ) : List (Option ℚ) → LoopResult
  | [] => .ok [] 0
  | none :: _ => .err 1
  | some e :: rest =>
    match tracker_loop f rest with
    | .ok samples n => .ok (f e :: samples) (n + 1)
    | .err n => .err (n + 1)

/-- `statistics.mean` on a nonempty list: sum divided by length. -/
def listMean (l : List ℚ) : ℚ := l.sum / l.length

/-- The outcome list visited by `for _ in range(num_runs)`; Python's `range`
of a non-positive integer is empty, which `Int.toNat` mirrors. -/
def tracker_outcomes (env : TrackerEnv) (num_runs : ℤ) : List (Option ℚ) :=
  (List.range num_runs.toNat).map env.run

/-- Embedding of `universal_emissions_tracker` (backend lines 85-99): run
the command `num_runs` times, record a CO2 sample per completed run, return
`0.0` as soon as any run raises, otherwise the mean of the samples (guarded
against the empty list). -/
def universal_emissions_tracker (env : TrackerEnv) (num_runs : ℤ := 3) : ℚ :=
  match tracker_loop (co2_of_elapsed env.sys) (tracker_outcomes env num_runs) with
  | .err _ => 0
  | .ok samples _ => if samples = [] then 0 else listMean samples

/-- Number of subprocess invocations performed by one call of
`universal_emissions_tracker`. -/
def universal_emissions_execs (env : TrackerEnv) (num_runs : ℤ := 3) : ℕ :=
  match tracker_loop (co2_of_elapsed env.sys) (tracker_outcomes env num_runs) with
  | .err n => n
  | .ok _ n => n

/-- The `test_params` dictionary: the keys `run_code_and_track_emissions`
reads, each possibly absent. -/
structure TestParams where
  function_name : Option String
  data_size : Option ℤ

/-- Environment for one call of `run_code_and_track_emissions`: temp-file
naming, the outcome of the python-branch subprocess call, the value returned
by the codecarbon tracker's `stop()` (`none` for Python `None`), the gcc
invocation's outcome (`Except.error ()` when `subprocess.run` itself raised,
otherwise the return code), and the environment of the
`universal_emissions_tracker` call the c/cpp and fallback branches make. -/
structure EstEnv where
  tempName : String → String
  pyRunRaises : Bool
  codecarbon : Option ℚ
  compile : Except Unit ℤ
  trEnv : TrackerEnv

/-- Observable outcome of one estimator call: the returned float, whether an
uncaught exception propagated to the caller, the temp paths created during
the call, and those still present after the `finally` block. -/
structure RunResult where
  value : ℚ
  raised : Bool
  created : List String
  remaining : List String
deriving Repr

/-- The `finally` block of `run_code_and_track_emissions` (backend lines
160-164): remove `temp_file` and then `exec_file` from the filesystem when
the variable is set and the path exists. -/
def applyFinally (temp_file exec_file : Option String) (fs : List String) : List String :=
  let fs1 :=
    match temp_file with
    | none => fs
    | some t => if t ∈ fs then fs.erase t else fs
  match exec_file with
  | none => fs1
  | some e => if e ∈ fs1 then fs1.erase e else fs1

/-- Embedding of `run_code_and_track_emissions` (backend lines 101-164).

Control-flow notes, matching the source line by line:
* `code.strip()` at line 102 runs *before* the `try`, so a `None` code value
  raises an uncaught `AttributeError` (`raised := true`); nothing has been
  created at that point.
* `language.lower()` and `test_params.get` run inside the `try`, so `None`
  values there are swallowed by the `except` and yield `0.0`.
* In the python branch the function returns `emissions if emissions else
  0.0`: a `None` or `0.0` tracker reading becomes `0.0`, any other reading
  is returned as is.
* In the c/cpp branch `exec_file = temp_file.replace(suffix, "")` is
  assigned before compiling; the binary exists only when gcc returned 0.
* The `finally` block always runs and removes whichever of the two paths
  exist; `remaining` is the list of created paths it leaves behind. -/
def run_code_and_track_emissions (env : EstEnv) (code : Option String)
    (test_params : Option TestParams) (language : Option String) : RunResult :=
  match code with
  | none =>
    { value := 0, raised := true, created := [], remaining := [] }
  | some c =>
    if strStrip c = "" then
      { value := 0, raised := false, created := [], remaining := [] }
    else
      match language with
      | none =>
        { value := 0, raised := false, created := [], remaining := applyFinally none none [] }
      | some lang0 =>
        let lang := strLower lang0
        if lang = "python" then
          match test_params with
          | none =>
            { value := 0, raised := false, created := [], remaining := applyFinally none none [] }
          | some tp =>
            let _function_name := tp.function_name.getD "dummy_function"
            let _data_size := tp.data_size.getD 1000
            let temp_file := env.tempName ".py"
            let fs := [temp_file]
            if env.pyRunRaises then
              { value := 0, raised := false, created := fs,
                remaining := applyFinally (some temp_file) none fs }
            else
              let emissions : ℚ :=
                match env.codecarbon with
                | none => 0
                | some v => if v = 0 then 0 else v
              { value := emissions, raised := false, created := fs,
                remaining := applyFinally (some temp_file) none fs }
        else if lang = "c" ∨ lang = "cpp" then
          let suffix := if lang = "c" then ".c" else ".cpp"
          let temp_file := env.tempName suffix
          let exec_file := temp_file.replace suffix ""
          let fs0 := [temp_file]
          match env.compile with
          | .error _ =>
            { value := 0, raised := false, created := fs0,
              remaining := applyFinally (some temp_file) (some exec_file) fs0 }
          | .ok rc =>
            if rc ≠ 0 then
              { value := 0, raised := false, created := fs0,
                remaining := applyFinally (some temp_file) (some exec_file) fs0 }
            else
              let fs1 := if exec_file ∈ fs0 then fs0 else fs0 ++ [exec_file]
              { value := universal_emissions_tracker env.trEnv 3, raised := false,
                created := fs1,
                remaining := applyFinally (some temp_file) (some exec_file) fs1 }
        else
          { value := universal_emissions_tracker env.trEnv 3, raised := false,
            created := [], remaining := applyFinally none none [] }

/-- Parsed JSON body of a `POST /optimize` request; `none` marks an absent
field (the endpoint contract takes string-valued fields). -/
structure OptBody where
  code : Option String
  language : Option String

/-- An HTTP response, reduced to the parts the claims are about. -/
structure HttpResponse where
  status : ℕ
  error : Option String
deriving DecidableEq, Repr

/-- Outcome of the `optimize` handler: the response plus whether the
inference client and the estimator were invoked during handling. -/
structure OptimizeResult where
  response : HttpResponse
  clientInvoked : Bool
  estimatorInvoked : Bool

/-- Environment for the `optimize` handler: whether the module-level client
singleton was initialised, and the outcome of the chat-completion call
(`Except.error msg` for an `HfHubHTTPError`; `ok none` for a response with
no usable choices; `ok (some content)` for a normal completion). -/
structure OptimizeEnv where
  clientPresent : Bool
  inference : Except String (Option String)

/-- Embedding of the `optimize` endpoint handler (backend lines 214-258),
as far as the response status/error and the invocation of the external
collaborators are concerned.  Note `detect_language` runs before the
empty-code check, but the client and the estimator run only after it. -/
def optimize (env : OptimizeEnv) (body : OptBody) : OptimizeResult :=
  let unoptimized_code := body.code.getD ""
  let language_input := body.language.getD ""
  let _language :=
    if language_input = "" then detect_language unoptimized_code "" else language_input
  if unoptimized_code = "" then
    { response := { status := 400, error := some "No code provided for optimization" },
      clientInvoked := false, estimatorInvoked := false }
  else if env.clientPresent = false then
    { response := { status := 500, error := some "Hugging Face API token not set." },
      clientInvoked := false, estimatorInvoked := false }
  else
    match env.inference with
    | .error msg =>
      { response := { status := 500, error := some ("Hugging Face Hub API error: " ++ msg) },
        clientInvoked := true, estimatorInvoked := true }
    | .ok none =>
      { response := { status := 500, error := some "Invalid response from Hugging Face model" },
        clientInvoked := true, estimatorInvoked := true }
    | .ok (some _) =>
      { response := { status := 200, error := none },
        clientInvoked := true, estimatorInvoked := true }

/-! ## Helper lemmas -/

/-- Non-negative environment readings: codecarbon never reports a negative
emission, wall-clock elapsed times are non-negative, GPU memory sizes are
non-negative. -/
def EstEnv.physical (env : EstEnv) : Prop :=
  (∀ v, env.codecarbon = some v → 0 ≤ v) ∧
  (∀ i e, env.trEnv.run i = some e → 0 ≤ e) ∧
  (∀ l, env.trEnv.sys.getGPUs = Except.ok l → ∀ m ∈ l, 0 ≤ m)

theorem cpu_watts_nonneg (s : SysEnv) : 0 ≤ (get_system_wattage s).2.1 := by
  unfold get_system_wattage
  dsimp only
  split <;> norm_num

theorem gpu_watts_nonneg (s : SysEnv)
    (h : ∀ l, s.getGPUs = Except.ok l → ∀ m ∈ l, 0 ≤ m) :
    0 ≤ (get_system_wattage s).2.2 := by
  unfold get_system_wattage
  dsimp only
  split
  · rcases hg : s.getGPUs with e | l
    · simp
    · have hl := h l hg
      simp only [hg]
      split
      · apply List.sum_nonneg
        intro x hx
        rcases List.mem_map.mp hx with ⟨m, hm, rfl⟩
        have := hl m hm
        nlinarith
      · norm_num
  · norm_num

theorem totalWatts_nonneg (s : SysEnv)
    (h : ∀ l, s.getGPUs = Except.ok l → ∀ m ∈ l, 0 ≤ m) :
    0 ≤ totalWatts s := by
  unfold totalWatts
  have h1 := cpu_watts_nonneg s
  have h2 := gpu_watts_nonneg s h
  have h3 : (0 : ℚ) ≤ (get_system_wattage s).1 := Nat.cast_nonneg _
  nlinarith

theorem co2_of_elapsed_eq (s : SysEnv) (e : ℚ) :
    co2_of_elapsed s e = totalWatts s * e / 3600 * 0.475 := rfl

theorem co2_of_elapsed_nonneg (s : SysEnv)
    (h : ∀ l, s.getGPUs = Except.ok l → ∀ m ∈ l, 0 ≤ m)
    {e : ℚ} (he : 0 ≤ e) : 0 ≤ co2_of_elapsed s e := by
  rw [co2_of_elapsed_eq]
  have hW := totalWatts_nonneg s h
  have h475 : (0 : ℚ) ≤ 0.475 := by norm_num
  positivity

theorem co2_mono_watts {s1 s2 : SysEnv} (e : ℚ) (he : 0 ≤ e)
    (h : totalWatts s1 ≤ totalWatts s2) :
    co2_of_elapsed s1 e ≤ co2_of_elapsed s2 e := by
  rw [co2_of_elapsed_eq, co2_of_elapsed_eq]
  have : totalWatts s1 * e ≤ totalWatts s2 * e := mul_le_mul_of_nonneg_right h he
  nlinarith

theorem co2_mono_elapsed (s : SysEnv) (hW : 0 ≤ totalWatts s)
    {e1 e2 : ℚ} (h : e1 ≤ e2) :
    co2_of_elapsed s e1 ≤ co2_of_elapsed s e2 := by
  rw [co2_of_elapsed_eq, co2_of_elapsed_eq]
  have : totalWatts s * e1 ≤ totalWatts s * e2 := mul_le_mul_of_nonneg_left h hW
  nlinarith

theorem co2_double (s : SysEnv) (e : ℚ) :
    co2_of_elapsed s (2 * e) = 2 * co2_of_elapsed s e := by
  rw [co2_of_elapsed_eq, co2_of_elapsed_eq]
  ring

theorem listMean_nonneg {l : List ℚ} (h : ∀ x ∈ l, 0 ≤ x) : 0 ≤ listMean l :=
  div_nonneg (List.sum_nonneg h) (Nat.cast_nonneg _)

theorem listMean_map_le {α : Type} (l : List α) (f g : α → ℚ)
    (h : ∀ x ∈ l, f x ≤ g x) :
    listMean (l.map f) ≤ listMean (l.map g) := by
  unfold listMean
  rw [List.length_map, List.length_map]
  rcases l with _ | ⟨a, l'⟩
  · simp
  · have hlen : (0 : ℚ) < ((a :: l').length : ℚ) := by
      simp [List.length_cons]
      positivity
    rw [div_le_div_iff_of_pos_right hlen]
    exact List.sum_le_sum h

theorem listMean_map_smul {α : Type} (l : List α) (f : α → ℚ) (c : ℚ) :
    listMean (l.map fun x => c * f x) = c * listMean (l.map f) := by
  unfold listMean
  rw [List.length_map, List.length_map]
  rw [List.sum_map_mul_left]
  ring

theorem listMean_replicate (n : ℕ) (c : ℚ) (hn : n ≠ 0) :
    listMean (List.replicate n c) = c := by
  unfold listMean
  rw [List.sum_replicate, List.length_replicate]
  rw [nsmul_eq_mul, mul_comm, mul_div_assoc, div_self, mul_one]
  exact_mod_cast hn

theorem tracker_loop_ok_mem (f : ℚ → ℚ) (outs : List (Option ℚ))
    (samples : List ℚ) (k : ℕ)
    (h : tracker_loop f outs = .ok samples k) :
    ∀ s ∈ samples, ∃ e, some e ∈ outs ∧ s = f e := by
  induction outs generalizing samples k with
  | nil =>
    simp only [tracker_loop, LoopResult.ok.injEq] at h
    rw [← h.1]
    simp
  | cons o rest ih =>
    rcases o with _ | e
    · simp [tracker_loop] at h
    · simp only [tracker_loop] at h
      cases heq : tracker_loop f rest with
      | ok samples' k' =>
        rw [heq] at h
        simp only [LoopResult.ok.injEq] at h
        rw [← h.1]
        intro s hs
        rcases List.mem_cons.mp hs with rfl | hs'
        · exact ⟨e, by simp, rfl⟩
        · rcases ih samples' k' heq s hs' with ⟨e', he', hfe'⟩
          exact ⟨e', by simp [he'], hfe'⟩
      | err k' =>
        rw [heq] at h
        exact absurd h (by simp)

theorem tracker_loop_all_some (f : ℚ → ℚ) (outs : List (Option ℚ))
    (h : ∀ o ∈ outs, o.isSome) :
    tracker_loop f outs = .ok (outs.map fun o => f (o.getD 0)) outs.length := by
  induction outs with
  | nil => rfl
  | cons o rest ih =>
    rcases o with _ | e
    · exact absurd (h none (by simp)) (by simp)
    · have := ih fun o ho => h o (by simp [ho])
      simp [tracker_loop, this]

theorem tracker_loop_err_of_none (f : ℚ → ℚ) (outs : List (Option ℚ))
    (h : ∃ o ∈ outs, o = none) :
    ∃ k, tracker_loop f outs = .err k := by
  induction outs with
  | nil => simp at h
  | cons o rest ih =>
    rcases o with _ | e
    · exact ⟨1, rfl⟩
    · rcases h with ⟨o', ho', rfl⟩
      rcases List.mem_cons.mp ho' with h' | h'
      · simp at h'
      · rcases ih ⟨none, h', rfl⟩ with ⟨k, hk⟩
        exact ⟨k + 1, by simp [tracker_loop, hk]⟩

/-- Full characterization of the tracker's return value: 0.0 as soon as any
run in range raises, 0.0 on an empty range, otherwise the mean of the
per-run CO2 samples. -/
theorem tracker_char (env : TrackerEnv) (n : ℤ) :
    universal_emissions_tracker env n =
      if (tracker_outcomes env n).any (fun o => o.isNone) then 0
      else if n.toNat = 0 then 0
      else listMean ((tracker_outcomes env n).map
        (fun o => co2_of_elapsed env.sys (o.getD 0))) := by
  by_cases hany : (tracker_outcomes env n).any (fun o => o.isNone) = true
  · rcases List.any_eq_true.mp hany with ⟨o, ho, hno⟩
    have : o = none := by
      rcases o with _ | e
      · rfl
      · simp at hno
    rcases tracker_loop_err_of_none (co2_of_elapsed env.sys) _ ⟨o, ho, this⟩ with ⟨k, hk⟩
    rw [if_pos hany]
    unfold universal_emissions_tracker
    rw [hk]
  · have hsome : ∀ o ∈ tracker_outcomes env n, o.isSome := by
      intro o ho
      rcases o with _ | e
      · exact absurd (List.any_eq_true.mpr ⟨none, ho, rfl⟩) hany
      · rfl
    rw [if_neg hany]
    unfold universal_emissions_tracker
    rw [tracker_loop_all_some _ _ hsome]
    have hlen : (tracker_outcomes env n).length = n.toNat := by
      unfold tracker_outcomes
      simp
    by_cases hn : n.toNat = 0
    · rw [if_pos hn]
      have : tracker_outcomes env n = [] := List.length_eq_zero.mp (by rw [hlen, hn])
      simp [this]
    · rw [if_neg hn]
      have : tracker_outcomes env n ≠ [] := by
        intro hnil
        exact hn (by rw [← hlen, hnil, List.length_nil])
      simp [this]

/-- Clearing lemmas for the finally block. -/
theorem applyFinally_none_nil : applyFinally none none [] = [] := rfl

theorem applyFinally_temp_only (t : String) : applyFinally (some t) none [t] = [] := by
  simp [applyFinally]

theorem applyFinally_temp_exec (t e : String) :
    applyFinally (some t) (some e) [t] = [] := by
  simp [applyFinally]

theorem applyFinally_c_branch (t e : String) :
    applyFinally (some t) (some e) (if e ∈ [t] then [t] else [t] ++ [e]) = [] := by
  by_cases h : e ∈ [t]
  · rw [if_pos h]
    exact applyFinally_temp_exec t e
  · rw [if_neg h]
    have hne : e ≠ t := by simpa using h
    simp [applyFinally, hne]

/-! ## Claim theorems -/

/-- C6, counterexample: the claimed precedence fails, because the source's
first keyword list also contains "printf".  The string "public class printf"
contains neither "#include" nor "int main" and does contain "public class",
so the claim requires "java"; `detect_language` returns "c". -/
theorem c6_precedence_counterexample :
    strContainsSub (strLower "public class printf") "#include" = false ∧
    strContainsSub (strLower "public class printf") "int main" = false ∧
    strContainsSub (strLower "public class printf") "public class" = true ∧
    detect_language "public class printf" "" = "c" := by decide

/-- C6, amended: the precedence holds once "printf" is added to the C-keyword
clause: a code string containing "#include", "int main" or "printf" maps to
"c"; else "public class" maps to "java"; else "console.log" or "function"
maps to "javascript"; else the SQL keywords "select"/"from"/"where" map to
"sql"; else the result is "python".  All checks are on the lowercased code
string.  In particular the spec's example input maps to "c". -/
theorem c6_precedence_amended :
    (∀ code prompt : String,
      detect_language code prompt =
        if strContainsSub (strLower code) "#include" ||
           strContainsSub (strLower code) "int main" ||
           strContainsSub (strLower code) "printf" then "c"
        else if strContainsSub (strLower code) "public class" then "java"
        else if strContainsSub (strLower code) "console.log" ||
                strContainsSub (strLower code) "function" then "javascript"
        else if strContainsSub (strLower code) "select" ||
                strContainsSub (strLower code) "from" ||
                strContainsSub (strLower code) "where" then "sql"
        else "python") ∧
    detect_language "#include <stdio.h> int main()\x7b\x7d" "" = "c" := by
  constructor
  · intro code prompt
    unfold detect_language
    simp only [List.any_cons, List.any_nil, Bool.or_false, Bool.or_assoc]
    split
    · rfl
    · split
      · rfl
      · split
        · rfl
        · split
          · rfl
          · split <;> rfl
  · decide

/-- C8: the power-profile probe returns the OS cpu count, a per-CPU wattage
of 45 unless the platform is detected as "Windows" (then 65), and GPU watts
equal to the sum of memory_total × 0.5 over the detected GPUs, with 0 when
the GPUtil capability is absent or enumeration raises.  The function is
total, so the probe never raises. -/
theorem c8_wattage_probe (s : SysEnv) :
    get_system_wattage s =
      (s.cpuCount,
       if s.platformSystem = "Windows" then (65 : ℚ) else 45,
       if s.gputilPresent then
         match s.getGPUs with
         | .error _ => 0
         | .ok gpus => (gpus.map (fun gpu => gpu * 0.5)).sum
       else 0) := by
  unfold get_system_wattage
  rcases s with ⟨cc, ps, gp, gl⟩
  dsimp only
  rcases gp with _ | _
  · rfl
  · rcases gl with e | l
    · rfl
    · rcases l with _ | ⟨m, l'⟩ <;> simp

/-- C10: with a non-positive num_runs the range is empty, so no subprocess
runs and the guarded mean yields exactly 0.0. -/
theorem c10_nonpositive_runs (env : TrackerEnv) (num_runs : ℤ)
    (h : num_runs ≤ 0) :
    universal_emissions_tracker env num_runs = 0 ∧
    universal_emissions_execs env num_runs = 0 := by
  have ht : num_runs.toNat = 0 := Int.toNat_of_nonpos h
  constructor <;>
    simp [universal_emissions_tracker, universal_emissions_execs,
      tracker_outcomes, ht, tracker_loop]

/-- Concrete tracker environment used to witness C10. -/
def c10Env : TrackerEnv :=
  ⟨⟨4, "Linux", true, Except.ok [8]⟩, fun _ => some 1⟩

/-- C10, witness at num_runs = -2. -/
theorem c10_nonpositive_runs_witness :
    universal_emissions_tracker c10Env (-2) = 0 ∧
    universal_emissions_execs c10Env (-2) = 0 :=
  c10_nonpositive_runs c10Env (-2) (by norm_num)

/-- C9: a POST /optimize body whose code field is missing or empty produces
a 400 response with the exact error message, and neither the inference
client nor the estimator is invoked. -/
theorem c9_optimize_empty_code (env : OptimizeEnv) (body : OptBody)
    (h : body.code = none ∨ body.code = some "") :
    (optimize env body).response =
      { status := 400, error := some "No code provided for optimization" } ∧
    (optimize env body).clientInvoked = false ∧
    (optimize env body).estimatorInvoked = false := by
  rcases h with h | h <;> simp [optimize, h]

/-- Concrete environment used to witness C9: client configured and a normal
completion available, so only the empty-code guard can produce the 400. -/
def c9Env : OptimizeEnv := ⟨true, Except.ok (some "def f(): pass")⟩

/-- C9, witness at a body with a missing code field. -/
theorem c9_optimize_empty_code_witness :
    (optimize c9Env ⟨none, some "python"⟩).response =
      { status := 400, error := some "No code provided for optimization" } ∧
    (optimize c9Env ⟨none, some "python"⟩).clientInvoked = false ∧
    (optimize c9Env ⟨none, some "python"⟩).estimatorInvoked = false :=
  c9_optimize_empty_code c9Env ⟨none, some "python"⟩ (Or.inl rfl)

/-- Concrete tracker environment for the C2 counterexample: the first run
completes in 1 second, the second run raises. -/
def c2Env : TrackerEnv :=
  ⟨⟨1, "Linux", false, Except.error ()⟩, fun i => if i = 0 then some 1 else none⟩

/-- C2, counterexample: the claim says the tracker returns 0.0 only when
every run raised, and that a successfully completed run before a failing
one still contributes to a non-zero mean.  In this environment run 0
completes with a strictly positive CO2 sample and run 1 raises, yet the
tracker returns 0.0: the except clause discards the earlier sample. -/
theorem c2_mean_counterexample :
    universal_emissions_tracker c2Env 3 = 0 ∧
    c2Env.run 0 = some 1 ∧
    c2Env.run 1 = none ∧
    0 < co2_of_elapsed c2Env.sys 1 := by
  refine ⟨by decide, by decide, by decide, ?_⟩
  simp [co2_of_elapsed, co2_kg, energy_kwh, get_system_wattage, c2Env]
  norm_num

/-- C2, amended: the tracker runs the command once per iteration up to
num_runs times (default 3), each bounded by the 300-second subprocess
timeout; if every run in range completes it returns the arithmetic mean of
the per-run CO2 values, and it returns 0.0 as soon as ANY run raises an
exception (e.g. timeout or missing executable), discarding the samples of
runs that had already completed, as well as when the range is empty. -/
theorem c2_mean_amended (env : TrackerEnv) (num_runs : ℤ) :
    universal_emissions_tracker env num_runs =
      if (tracker_outcomes env num_runs).any (fun o => o.isNone) then 0
      else if num_runs.toNat = 0 then 0
      else listMean ((tracker_outcomes env num_runs).map
        (fun o => co2_of_elapsed env.sys (o.getD 0))) :=
  tracker_char env num_runs

/-- C3: every sample recorded by the tracker loop arises from the elapsed
time of one of the runs and satisfies the spec invariant: it equals
energy_kwh × 0.475 where energy_kwh = (cpu_power_w × cpu_count +
gpu_power_w) × elapsed / 3600, with the wattage triple taken from the
power-profile probe. -/
theorem c3_sample_invariant (env : TrackerEnv) (num_runs : ℤ)
    (samples : List ℚ) (k : ℕ)
    (h : tracker_loop (co2_of_elapsed env.sys) (tracker_outcomes env num_runs) =
      .ok samples k) :
    ∀ s ∈ samples, ∃ elapsed, (∃ i, env.run i = some elapsed) ∧
      s = energy_kwh (get_system_wattage env.sys).1 (get_system_wattage env.sys).2.1
            (get_system_wattage env.sys).2.2 elapsed * 0.475 ∧
      energy_kwh (get_system_wattage env.sys).1 (get_system_wattage env.sys).2.1
            (get_system_wattage env.sys).2.2 elapsed =
        ((get_system_wattage env.sys).2.1 * (get_system_wattage env.sys).1 +
          (get_system_wattage env.sys).2.2) * elapsed / 3600 := by
  intro s hs
  rcases tracker_loop_ok_mem _ _ _ _ h s hs with ⟨e, he, rfl⟩
  refine ⟨e, ?_, rfl, rfl⟩
  rcases List.mem_map.mp he with ⟨i, _, hi⟩
  exact ⟨i, hi⟩

/-- Concrete tracker environment for the C3 witness: one CPU, no GPU, every
run takes 1 second. -/
def c3Env : TrackerEnv :=
  ⟨⟨1, "Linux", false, Except.ok []⟩, fun _ => some 1⟩

/-- C3, witness: the loop on c3Env records the sample 19/3200 three times,
and the invariant holds for it. -/
theorem c3_sample_invariant_witness :
    ∃ elapsed, (∃ i, c3Env.run i = some elapsed) ∧
      (19/3200 : ℚ) =
        energy_kwh (get_system_wattage c3Env.sys).1 (get_system_wattage c3Env.sys).2.1
          (get_system_wattage c3Env.sys).2.2 elapsed * 0.475 ∧
      energy_kwh (get_system_wattage c3Env.sys).1 (get_system_wattage c3Env.sys).2.1
          (get_system_wattage c3Env.sys).2.2 elapsed =
        ((get_system_wattage c3Env.sys).2.1 * (get_system_wattage c3Env.sys).1 +
          (get_system_wattage c3Env.sys).2.2) * elapsed / 3600 :=
  c3_sample_invariant c3Env 3 [19/3200, 19/3200, 19/3200] 3
    (by
      simp [tracker_loop, tracker_outcomes, List.range_succ, co2_of_elapsed,
        co2_kg, energy_kwh, get_system_wattage, c3Env]
      norm_num)
    (19/3200) (by simp)

/-- C5: for a c/cpp language tag and non-blank code, when gcc returns a
non-zero exit code the estimator returns exactly 0.0 and does not surface an
error: no exception propagates to the caller. -/
theorem c5_compile_failure_zero (env : EstEnv) (c : String)
    (tp : Option TestParams) (lang0 : String) (rc : ℤ)
    (hc : strStrip c ≠ "")
    (hl : strLower lang0 = "c" ∨ strLower lang0 = "cpp")
    (hcomp : env.compile = Except.ok rc) (hrc : rc ≠ 0) :
    (run_code_and_track_emissions env (some c) tp (some lang0)).value = 0 ∧
    (run_code_and_track_emissions env (some c) tp (some lang0)).raised = false := by
  rcases hl with hl | hl <;>
    simp [run_code_and_track_emissions, hc, hl, hcomp, hrc]

/-- Concrete estimator environment for the C5 witness: gcc exits with
return code 1. -/
def c5Env : EstEnv :=
  ⟨fun sfx => "/tmp/tmpw1xk2" ++ sfx, false, none, Except.ok 1,
    ⟨⟨1, "Linux", false, Except.ok []⟩, fun _ => some 1⟩⟩

/-- C5, witness: an uncompilable C snippet yields exactly 0.0 without an
exception. -/
theorem c5_compile_failure_zero_witness :
    (run_code_and_track_emissions c5Env (some "int main( bad") none (some "c")).value = 0 ∧
    (run_code_and_track_emissions c5Env (some "int main( bad") none (some "c")).raised = false :=
  c5_compile_failure_zero c5Env "int main( bad" none "c" 1
    (by decide) (Or.inl (by decide)) rfl (by decide)

theorem tracker_nonneg (env : TrackerEnv) (n : ℤ)
    (hrun : ∀ i e, env.run i = some e → 0 ≤ e)
    (hgpu : ∀ l, env.sys.getGPUs = Except.ok l → ∀ m ∈ l, 0 ≤ m) :
    0 ≤ universal_emissions_tracker env n := by
  unfold universal_emissions_tracker
  cases heq : tracker_loop (co2_of_elapsed env.sys) (tracker_outcomes env n) with
  | err k => exact le_refl 0
  | ok samples k =>
    dsimp only
    split
    · exact le_refl 0
    · apply listMean_nonneg
      intro s hs
      rcases tracker_loop_ok_mem _ _ _ _ heq s hs with ⟨e, he, rfl⟩
      rcases List.mem_map.mp he with ⟨i, _, hi⟩
      exact co2_of_elapsed_nonneg env.sys hgpu (hrun i e hi)

/-- C7: after any estimator call, on every control path (python, c/cpp with
compile failure, compile exception or compiled run, unsupported language,
swallowed internal exception, and even the uncaught-exception path for a
None code value), no temp script or binary created during the call is left
behind by the finally block. -/
theorem c7_cleanup (env : EstEnv) (code : Option String)
    (tp : Option TestParams) (lang : Option String) :
    (run_code_and_track_emissions env code tp lang).remaining = [] := by
  unfold run_code_and_track_emissions
  rcases code with _ | c
  · rfl
  · dsimp only
    split
    · rfl
    · rcases lang with _ | lang0
      · rfl
      · dsimp only
        split
        · rcases tp with _ | tp
          · rfl
          · dsimp only
            split
            · exact applyFinally_temp_only _
            · exact applyFinally_temp_only _
        · split
          · cases env.compile with
            | error e => exact applyFinally_temp_exec _ _
            | ok rc =>
              dsimp only
              split
              · exact applyFinally_temp_exec _ _
              · exact applyFinally_c_branch _ _
          · rfl

/-- Concrete estimator environment for the C1 counterexample. -/
def c1NoneEnv : EstEnv :=
  ⟨fun sfx => "/tmp/c1" ++ sfx, false, none, Except.ok 0,
    ⟨⟨1, "Linux", false, Except.error ()⟩, fun _ => none⟩⟩

/-- C1, counterexample: with a None-like code value the call to
code.strip() at line 102 happens before the try/finally, so the
AttributeError propagates to the caller: the estimator does raise. -/
theorem c1_none_code_counterexample :
    (run_code_and_track_emissions c1NoneEnv none
      (some ⟨some "dummy_function", some 1000⟩) (some "python")).raised = true := rfl

/-- C1, amended: for every actual string code value (test parameters and
language tag still arbitrary, including None-like values), and physically
meaningful environment readings (non-negative elapsed times, GPU memory
sizes and codecarbon readings), the estimator returns a non-negative value
and never raises: every internal exception is caught and converted to a
0.0 result. -/
theorem c1_estimator_amended (env : EstEnv) (code : String)
    (tp : Option TestParams) (lang : Option String) (h : env.physical) :
    (run_code_and_track_emissions env (some code) tp lang).raised = false ∧
    0 ≤ (run_code_and_track_emissions env (some code) tp lang).value := by
  obtain ⟨hcc, hrun, hgpu⟩ := h
  have htr : 0 ≤ universal_emissions_tracker env.trEnv 3 :=
    tracker_nonneg _ _ hrun hgpu
  unfold run_code_and_track_emissions
  dsimp only
  split
  · exact ⟨rfl, le_refl 0⟩
  · rcases lang with _ | lang0
    · exact ⟨rfl, le_refl 0⟩
    · dsimp only
      split
      · rcases tp with _ | tp
        · exact ⟨rfl, le_refl 0⟩
        · dsimp only
          split
          · exact ⟨rfl, le_refl 0⟩
          · refine ⟨rfl, ?_⟩
            rcases hc : env.codecarbon with _ | v
            · simp [hc]
            · simp only [hc]
              split
              · exact le_refl 0
              · exact hcc v hc
      · split
        · cases hcomp : env.compile with
          | error e => exact ⟨rfl, le_refl 0⟩
          | ok rc =>
            dsimp only
            split
            · exact ⟨rfl, le_refl 0⟩
            · exact ⟨rfl, htr⟩
        · exact ⟨rfl, htr⟩

/-- Concrete estimator environment for the C1 witness. -/
def c1wEnv : EstEnv :=
  ⟨fun sfx => "/tmp/c1w" ++ sfx, false, none, Except.error (),
    ⟨⟨2, "Darwin", true, Except.error ()⟩, fun _ => none⟩⟩

/-- C1, witness: a string code with None-like test parameters and language
yields no exception and a non-negative value. -/
theorem c1_estimator_amended_witness :
    (run_code_and_track_emissions c1wEnv (some "print(1)") none none).raised = false ∧
    0 ≤ (run_code_and_track_emissions c1wEnv (some "print(1)") none none).value :=
  c1_estimator_amended c1wEnv "print(1)" none none
    ⟨fun v hv => by simp [c1wEnv] at hv,
     fun i e hv => by simp [c1wEnv] at hv,
     fun l hl => by simp [c1wEnv] at hl⟩

theorem list_any_congr {α : Type} {l : List α} {p q : α → Bool}
    (h : ∀ a ∈ l, p a = q a) : l.any p = l.any q := by
  induction l with
  | nil => rfl
  | cons a l' ih =>
    simp only [List.any_cons]
    rw [h a (by simp), ih fun a' ha' => h a' (by simp [ha'])]

/-- C4: with num_runs = 3 and every run measuring the same elapsed time t,
the tracker returns the single-run CO2 value for t; the estimate is
monotone in the total wattage (elapsed times non-negative) and in the
per-run elapsed times (total wattage non-negative); and doubling every
run's elapsed time with everything else fixed doubles the estimate. -/
theorem c4_algebraic :
    (∀ (env : TrackerEnv) (t : ℚ), (∀ i, i < 3 → env.run i = some t) →
      universal_emissions_tracker env 3 = co2_of_elapsed env.sys t) ∧
    (∀ (env1 env2 : TrackerEnv) (n : ℤ), env1.run = env2.run →
      (∀ i e, env1.run i = some e → 0 ≤ e) →
      totalWatts env1.sys ≤ totalWatts env2.sys →
      universal_emissions_tracker env1 n ≤ universal_emissions_tracker env2 n) ∧
    (∀ (env1 env2 : TrackerEnv) (n : ℤ), env1.sys = env2.sys →
      0 ≤ totalWatts env1.sys →
      (∀ i, ∃ e1 e2, env1.run i = some e1 ∧ env2.run i = some e2 ∧ e1 ≤ e2) →
      universal_emissions_tracker env1 n ≤ universal_emissions_tracker env2 n) ∧
    (∀ (env1 env2 : TrackerEnv) (n : ℤ), env1.sys = env2.sys →
      (∀ i, env2.run i = (env1.run i).map (fun e => 2 * e)) →
      universal_emissions_tracker env2 n = 2 * universal_emissions_tracker env1 n) := by
  refine ⟨?_, ?_, ?_, ?_⟩
  · -- equal elapsed times: the mean of three equal samples is the sample
    intro env t h
    have houts : tracker_outcomes env 3 = [some t, some t, some t] := by
      have hr : List.range (Int.toNat 3) = [0, 1, 2] := by decide
      unfold tracker_outcomes
      rw [hr]
      simp [h 0 (by norm_num), h 1 (by norm_num), h 2 (by norm_num)]
    rw [tracker_char, houts]
    have hany : ([some t, some t, some t] : List (Option ℚ)).any
        (fun o => o.isNone) = false := by simp
    rw [hany]
    simp only [Bool.false_eq_true, if_false]
    rw [if_neg (by norm_num)]
    show listMean (List.replicate 3 (co2_of_elapsed env.sys t)) = _
    exact listMean_replicate 3 _ (by norm_num)
  · -- monotone in the total wattage
    intro env1 env2 n hrun hnn hW
    rw [tracker_char, tracker_char]
    have houts : tracker_outcomes env2 n = tracker_outcomes env1 n := by
      unfold tracker_outcomes
      rw [hrun]
    rw [houts]
    split
    · exact le_refl 0
    · split
      · exact le_refl 0
      · apply listMean_map_le
        intro o ho
        apply co2_mono_watts _ ?_ hW
        rcases o with _ | e
        · exact le_refl 0
        · rcases List.mem_map.mp ho with ⟨i, _, hi⟩
          exact hnn i e hi
  · -- monotone in the elapsed times
    intro env1 env2 n hsys hW hrun
    rw [tracker_char, tracker_char, ← hsys]
    have h1 : (tracker_outcomes env1 n).any (fun o => o.isNone) = false := by
      rw [List.any_eq_false]
      intro o ho
      rcases List.mem_map.mp ho with ⟨i, _, hi⟩
      rcases hrun i with ⟨e1, e2, he1, _, _⟩
      rw [← hi, he1]
      simp
    have h2 : (tracker_outcomes env2 n).any (fun o => o.isNone) = false := by
      rw [List.any_eq_false]
      intro o ho
      rcases List.mem_map.mp ho with ⟨i, _, hi⟩
      rcases hrun i with ⟨e1, e2, _, he2, _⟩
      rw [← hi, he2]
      simp
    rw [h1, h2]
    simp only [Bool.false_eq_true, if_false]
    split
    · exact le_refl 0
    · unfold tracker_outcomes
      rw [List.map_map, List.map_map]
      apply listMean_map_le
      intro i _
      rcases hrun i with ⟨e1, e2, he1, he2, hle⟩
      simp only [Function.comp_apply, he1, he2, Option.getD_some]
      exact co2_mono_elapsed _ hW hle
  · -- doubling the elapsed times doubles the estimate
    intro env1 env2 n hsys hmap
    rw [tracker_char, tracker_char, ← hsys]
    have houts2 : tracker_outcomes env2 n =
        (tracker_outcomes env1 n).map (Option.map (fun e => 2 * e)) := by
      unfold tracker_outcomes
      rw [List.map_map]
      exact List.map_congr_left fun i _ => hmap i
    have hnone : (tracker_outcomes env2 n).any (fun o => o.isNone) =
        (tracker_outcomes env1 n).any (fun o => o.isNone) := by
      rw [houts2]
      induction tracker_outcomes env1 n with
      | nil => rfl
      | cons o rest ih => cases o <;> simp [ih]
    rw [hnone]
    split
    · norm_num
    · split
      · norm_num
      · unfold tracker_outcomes
        rw [List.map_map, List.map_map]
        have hpt : ∀ i ∈ List.range n.toNat,
            ((fun o => co2_of_elapsed env1.sys (o.getD 0)) ∘ env2.run) i =
              2 * ((fun o => co2_of_elapsed env1.sys (o.getD 0)) ∘ env1.run) i := by
          intro i _
          simp only [Function.comp_apply, hmap i]
          cases henv : env1.run i with
          | none =>
            have h0 : co2_of_elapsed env1.sys 0 = 0 := by
              rw [co2_of_elapsed_eq]
              ring
            simp [h0]
          | some e =>
            simp only [Option.map_some, Option.getD_some]
            exact co2_double _ _
        rw [List.map_congr_left hpt]
        exact listMean_map_smul (List.range n.toNat) _ 2

/-- Tracker environments for the C4 witness: one CPU, no GPU, 1-second runs
on Linux; the same runs on Windows (higher wattage); 2-second runs on
Linux. -/
def c4aEnv : TrackerEnv := ⟨⟨1, "Linux", false, Except.ok []⟩, fun _ => some 1⟩

def c4bEnv : TrackerEnv := ⟨⟨1, "Windows", false, Except.ok []⟩, fun _ => some 1⟩

def c4cEnv : TrackerEnv := ⟨⟨1, "Linux", false, Except.ok []⟩, fun _ => some 2⟩

/-- C4, witness: all four parts instantiated at concrete environments. -/
theorem c4_algebraic_witness :
    universal_emissions_tracker c4aEnv 3 = co2_of_elapsed c4aEnv.sys 1 ∧
    universal_emissions_tracker c4aEnv 3 ≤ universal_emissions_tracker c4bEnv 3 ∧
    universal_emissions_tracker c4aEnv 3 ≤ universal_emissions_tracker c4cEnv 3 ∧
    universal_emissions_tracker c4cEnv 3 = 2 * universal_emissions_tracker c4aEnv 3 :=
  ⟨c4_algebraic.1 c4aEnv 1 (fun i _ => rfl),
   c4_algebraic.2.1 c4aEnv c4bEnv 3 rfl
     (fun i e h => by
       simp only [c4aEnv, Option.some.injEq] at h
       exact h ▸ zero_le_one)
     (by
       simp [totalWatts, get_system_wattage, c4aEnv, c4bEnv]
       norm_num),
   c4_algebraic.2.2.1 c4aEnv c4cEnv 3 rfl
     (by simp [totalWatts, get_system_wattage, c4aEnv])
     (fun i => ⟨1, 2, rfl, rfl, by norm_num⟩),
   c4_algebraic.2.2.2 c4aEnv c4cEnv 3 rfl
     (fun i => by simp [c4aEnv, c4cEnv])⟩

end Codeleaf
